import Mathlib

/-!
Verification of the aero-SEA core: a shallow embedding of the model
assembler (`sea_engine/core/engine.py`) and of the result post-treatment
and serialization pipeline (`sea_engine/utils/posttreatment.py`),
together with theorems settling the specified properties.

Numeric convention: Python/NumPy floating-point values are embedded as
rationals (ℚ); every arithmetic operation the code performs (scalar
multiplication by 1000 or 10^6, division by 2π, truncation by `int()`)
is carried out exactly on ℚ.  Complex numbers are embedded as pairs
(real, imaginary).  Python `dict`s are embedded as insertion-ordered
association lists, matching CPython's ordered-dict semantics.
-/

/-- Embedding of a Python/NumPy complex number as (real, imag). -/
abbrev CNum := ℚ × ℚ

/-- Embedding of the Python `float(x)` coercion applied to a numeric
value: on the rational embedding of IEEE doubles it is the identity. -/
def pyFloat (x : ℚ) : ℚ := x

/-- Embedding of the Python `int(x)` coercion applied to an `int`:
the identity. -/
def pyIntId (x : ℤ) : ℤ := x

/-- Embedding of the Python `int(x)` coercion on a float: truncation
toward zero. -/
def pyTrunc (a : ℚ) : ℤ := if a < 0 then ⌈a⌉ else ⌊a⌋

/-- Python truthiness of an optional number: `None` and `0` are falsy
(`x if x else d` picks the default for both). -/
def pyOrElse (o : Option ℚ) (d : ℚ) : ℚ :=
  match o with
  | some x => if x = 0 then d else x
  | none => d

/-- The IEEE-754 double nearest π, i.e. the exact rational value of
`np.pi` as used by the code (`freq_rad / (2 * np.pi)`). -/
def pi64 : ℚ := 884279719003555 / 281474976710656

/-! ## Unit table and conversions (posttreatment.py lines 195-219, 520-557) -/

/-- A unit-selection table, embedding the `self._units` dict of
`PostTreatment` (quantity name ↦ unit string). -/
abbrev UnitTable := List (String × String)

/-- Python `dict` assignment `tbl[k] = v`: replace in place if the key
is present, else append (insertion order preserved). -/
def updateAssoc (tbl : List (String × String)) (k v : String) :
    List (String × String) :=
  match tbl with
  | [] => [(k, v)]
  | (k0, v0) :: rest =>
      if k0 = k then (k, v) :: rest else (k0, v0) :: updateAssoc rest k v

/-- Python `dict` read access `tbl.get(k, d)` without the default:
first binding for the key, scanning in insertion order. -/
def lookupU (tbl : List (String × String)) (q : String) : Option String :=
  match tbl with
  | [] => none
  | (k0, v0) :: rest => if k0 = q then some v0 else lookupU rest q

/-- The initial `self._units` table set in `PostTreatment.__init__`
(lines 195-202). -/
def default_units : UnitTable :=
  [("energy", "J"), ("power", "W"), ("velocity", "m/s"),
   ("pressure", "Pa"), ("length", "m"), ("area", "m²")]

/-- The `valid_units` table of `PostTreatment.set_units`
(lines 206-213). -/
def valid_units : List (String × List String) :=
  [("energy", ["J", "mJ", "uJ"]),
   ("power", ["W", "mW", "uW"]),
   ("velocity", ["m/s", "mm/s", "um/s"]),
   ("pressure", ["Pa", "uPa"]),
   ("length", ["m", "mm", "um"]),
   ("area", ["m²", "cm²", "mm²"])]

/-- The guard `key in valid_units and value in valid_units[key]` of
`set_units` (line 216). -/
def validUnit (k v : String) : Bool :=
  match valid_units.lookup k with
  | some vs => vs.contains v
  | none => false

/-- Embedding of `PostTreatment.set_units` (lines 204-219): iterate over
the keyword pairs; a recognized (quantity, unit) pair updates the table,
anything else leaves the table unchanged and appends a warning message.
The function is total: the Python code never raises. -/
def set_units (tbl : UnitTable) (kwargs : List (String × String)) :
    UnitTable × List String :=
  kwargs.foldl
    (fun acc kv =>
      if validUnit kv.1 kv.2 then (updateAssoc acc.1 kv.1 kv.2, acc.2)
      else (acc.1,
        acc.2 ++ ["Ignoring invalid unit: " ++ kv.1 ++ "=" ++ kv.2]))
    (tbl, [])

/-- Embedding of the unvalidated unit assignment performed at the top of
`PostTreatment.process_model` (lines 240-242):
`self._units["energy"] = energy_unit` etc.  No validation, and the
returned warning list is empty: the code logs nothing here. -/
def storeUnits (tbl : UnitTable) (energy_unit power_unit velocity_unit : String) :
    UnitTable × List String :=
  (updateAssoc (updateAssoc (updateAssoc tbl "energy" energy_unit)
      "power" power_unit) "velocity" velocity_unit, [])

/-- Embedding of `PostTreatment._convert_energy` (lines 520-527): look
the energy unit up in the table (default "J"), then scale the whole
array by 1000 for "mJ", by 10^6 for "uJ", and leave it unchanged
otherwise. -/
def convert_energy (tbl : UnitTable) (data : List (List ℚ)) : List (List ℚ) :=
  let unit := (lookupU tbl "energy").getD "J"
  if unit = "mJ" then data.map (fun row => row.map (fun x => x * 1000))
  else if unit = "uJ" then data.map (fun row => row.map (fun x => x * 1000000))
  else data

/-- Embedding of `PostTreatment._convert_power` (lines 529-536), applied
to the 1-D power-input array. -/
def convert_power (tbl : UnitTable) (data : List ℚ) : List ℚ :=
  let unit := (lookupU tbl "power").getD "W"
  if unit = "mW" then data.map (fun x => x * 1000)
  else if unit = "uW" then data.map (fun x => x * 1000000)
  else data

/-- Embedding of `PostTreatment._convert_result_data` (lines 538-557):
for each column index i enumerated over the DOF-type list, multiply the
column by the velocity factor when the type code is 7; columns beyond
the DOF-type list are untouched (the Python loop enumerates
`dof_types`).  Well-formed inputs (as produced by the extractor) have
one DOF type per column. -/
def convert_result_data (tbl : UnitTable) (data : List (List ℚ))
    (dofTypes : List ℤ) : List (List ℚ) :=
  let unit := (lookupU tbl "velocity").getD "m/s"
  let factor : ℚ :=
    if unit = "mm/s" then 1000 else if unit = "um/s" then 1000000 else 1
  data.map (fun row =>
    (row.enum.map (fun p =>
      if dofTypes.getD p.1 0 = 7 then p.2 * factor else p.2)))

/-! ## Result data model (posttreatment.py lines 48-181) -/

/-- Embedding of the `ModalData` dataclass (lines 48-60). -/
structure ModalData where
  system_id : ℤ
  system_name : String
  system_type : String
  wave_type : ℤ
  modal_density : List ℚ
  modal_overlap : List ℚ
  frequency : List ℚ
deriving DecidableEq, Repr

/-- Embedding of the `JunctionData` dataclass (lines 63-76). -/
structure JunctionData where
  junction_name : String
  junction_type : String
  system1_id : ℤ
  system2_id : ℤ
  area : Option ℚ := none
  length : Option ℚ := none
  angles : Option (List ℚ) := none
  coupling_loss_factor : Option (List (List ℚ)) := none
deriving DecidableEq, Repr

/-- Embedding of the `SEAMatrixData` dataclass (lines 79-93).  The
matrix entries are embedded as possibly-complex numbers; values loaded
back from a file are plain reals, i.e. pairs with imaginary part 0. -/
structure SEAMatrixData where
  matrix : List (List (List CNum))
  frequency : List ℚ
  system_ids : List ℤ
  system_types : List String
deriving DecidableEq, Repr

/-- The per-system info dict built by `_extract_systems`
(lines 289-322): id, class name, whichever dimensions exist, and
optional material data (class name, rho0, E). -/
structure SystemInfo where
  id : ℤ
  type : String
  Lx : Option ℚ := none
  Ly : Option ℚ := none
  Lz : Option ℚ := none
  volume : Option ℚ := none
  area : Option ℚ := none
  material : Option (String × Option ℚ × Option ℚ) := none
deriving DecidableEq, Repr

/-- The energy / general-result dict: keys data, dof_id, dof_type
(lines 435-439, 457-461, and the loaded JSON blocks). -/
structure EnergyBlock where
  data : List (List ℚ)
  dof_id : List ℤ
  dof_type : List ℤ
deriving DecidableEq, Repr

/-- The power-input dict: keys data (1-D) and dof_id (lines 478-481). -/
structure PowerBlock where
  data : List ℚ
  dof_id : List ℤ
deriving DecidableEq, Repr

/-- The per-load info dict built by `_extract_loads` (lines 510-516). -/
structure LoadInfo where
  name : String
  type : String
  spectrum : Option (List ℚ) := none
deriving DecidableEq, Repr

/-- Embedding of the `ResultData` dataclass (lines 96-133).  Python
dicts that may be empty-and-falsy (`energy`, `result`, `power_input`)
are embedded as `Option` (none ↔ the empty dict `\x7b\x7d`); keyed dicts are
insertion-ordered association lists. -/
structure ResultData where
  project_name : String
  analysis_type : String := "SEA"
  export_format : String := "1.0"
  frequency_hz : List ℚ := []
  frequency_rad : List ℚ := []
  systems : List (String × SystemInfo) := []
  modal_data : List (String × ModalData) := []
  junctions : List (String × JunctionData) := []
  energy : Option EnergyBlock := none
  result : Option EnergyBlock := none
  power_input : Option PowerBlock := none
  sea_matrix : Option SEAMatrixData := none
  loads : List (String × LoadInfo) := []
  units : List (String × String) := []
deriving DecidableEq, Repr

/-! ## Serializer / Loader (posttreatment.py lines 135-181, 559-596, 704-736)

The JSON file is modeled by the document structure below; `json.dump`
followed by `json.load` is the identity on that document (CPython's
float repr round-trips IEEE doubles exactly, and `convert_to_serializable`
is the identity on already-native values in this embedding). -/

/-- The "metadata" section of the exported document (lines 138-143). -/
structure JsonMeta where
  project_name : String
  analysis_type : String
  export_format : String
  units : List (String × String)
deriving DecidableEq, Repr

/-- The "frequency" section of the exported document (lines 144-147). -/
structure JsonFreq where
  hz : List ℚ
  rad_s : List ℚ
deriving DecidableEq, Repr

/-- The "sea_matrix" section of the exported document, as produced by
`SEAMatrixData.to_dict` (lines 87-93): the matrix holds real parts
only. -/
structure JsonSEA where
  matrix : List (List (List ℚ))
  frequency : List ℚ
  system_ids : List ℤ
  system_types : List String
deriving DecidableEq, Repr

/-- The exported JSON document: the dict built by `ResultData.to_dict`
(lines 135-181), written verbatim by `export_json` (lines 559-596).
The optional sections are present exactly when the corresponding
`ResultData` field is truthy. -/
structure JsonDoc where
  metadata : JsonMeta
  frequency : JsonFreq
  systems : List (String × SystemInfo)
  modal_data : List (String × ModalData)
  junctions : List (String × JunctionData)
  loads : List (String × LoadInfo)
  energy : Option EnergyBlock := none
  result : Option EnergyBlock := none
  power_input : Option PowerBlock := none
  sea_matrix : Option JsonSEA := none
deriving DecidableEq, Repr

/-- Embedding of `SEAMatrixData.to_dict` (lines 87-93): keep only the
real part of every matrix entry (`float(x.real)`). -/
def SEAMatrixData.to_dict (s : SEAMatrixData) : JsonSEA :=
  { matrix := s.matrix.map (fun freq => freq.map (fun row => row.map (fun x => pyFloat x.1)))
    frequency := s.frequency.map pyFloat
    system_ids := s.system_ids.map pyIntId
    system_types := s.system_types }

/-- Embedding of `ResultData.to_dict` (lines 135-181): builds the
self-describing document; `energy`, `result`, `power_input` and
`sea_matrix` are included only if truthy (non-empty / non-None). -/
def ResultData.to_dict (rd : ResultData) : JsonDoc :=
  { metadata :=
      { project_name := rd.project_name
        analysis_type := rd.analysis_type
        export_format := rd.export_format
        units := rd.units }
    frequency :=
      { hz := rd.frequency_hz.map pyFloat
        rad_s := rd.frequency_rad.map pyFloat }
    systems := rd.systems
    modal_data := rd.modal_data
    junctions := rd.junctions
    loads := rd.loads
    energy := rd.energy.map (fun b =>
      { data := b.data.map (fun row => row.map pyFloat)
        dof_id := b.dof_id.map pyIntId
        dof_type := b.dof_type.map pyIntId })
    result := rd.result.map (fun b =>
      { data := b.data.map (fun row => row.map pyFloat)
        dof_id := b.dof_id.map pyIntId
        dof_type := b.dof_type.map pyIntId })
    power_input := rd.power_input.map (fun b =>
      { data := b.data.map pyFloat
        dof_id := b.dof_id.map pyIntId })
    sea_matrix := rd.sea_matrix.map SEAMatrixData.to_dict }

/-- Embedding of `PostTreatment.export_json` (lines 559-596): convert
the bundle to its dict form and write it; the written file holds
exactly this document (numeric normalization is the identity here). -/
def export_json (rd : ResultData) : JsonDoc := rd.to_dict

/-- Embedding of `_load_json` (lines 704-736): rebuild a `ResultData`
from the document.  Sections the loader never reads (`loads`,
`power_input`, `metadata.units`, `analysis_type`, `export_format`)
are left at the fresh-instance defaults.  A loaded SEA matrix holds
plain reals, embedded with imaginary part 0. -/
def load_json (doc : JsonDoc) : ResultData :=
  { project_name := doc.metadata.project_name
    frequency_hz := doc.frequency.hz
    frequency_rad := doc.frequency.rad_s
    systems := doc.systems
    modal_data := doc.modal_data
    junctions := doc.junctions
    energy := doc.energy
    result := doc.result
    sea_matrix := doc.sea_matrix.map (fun s =>
      { matrix := s.matrix.map (fun freq => freq.map (fun row => row.map (fun r => (r, (0 : ℚ)))))
        frequency := s.frequency
        system_ids := s.system_ids
        system_types := s.system_types }) }

/-- The real-part projection of a stored SEA matrix: every entry keeps
its real component at imaginary part 0. -/
def seaRealPart (s : SEAMatrixData) : SEAMatrixData :=
  { s with matrix := s.matrix.map (fun freq => freq.map (fun row => row.map (fun x => (x.1, (0 : ℚ))))) }

/-! ## Round-trip lemmas for the JSON serializer -/

theorem pyFloat_eq_id : pyFloat = id := rfl

theorem pyIntId_eq_id : pyIntId = id := rfl

theorem roundtrip_project_name (rd : ResultData) :
    (load_json (export_json rd)).project_name = rd.project_name := rfl

theorem roundtrip_frequency_hz (rd : ResultData) :
    (load_json (export_json rd)).frequency_hz = rd.frequency_hz := by
  simp [load_json, export_json, ResultData.to_dict, pyFloat_eq_id]

theorem roundtrip_frequency_rad (rd : ResultData) :
    (load_json (export_json rd)).frequency_rad = rd.frequency_rad := by
  simp [load_json, export_json, ResultData.to_dict, pyFloat_eq_id]

theorem roundtrip_systems (rd : ResultData) :
    (load_json (export_json rd)).systems = rd.systems := rfl

theorem roundtrip_modal_data (rd : ResultData) :
    (load_json (export_json rd)).modal_data = rd.modal_data := rfl

theorem roundtrip_junctions (rd : ResultData) :
    (load_json (export_json rd)).junctions = rd.junctions := rfl

theorem roundtrip_energy (rd : ResultData) :
    (load_json (export_json rd)).energy = rd.energy := by
  cases h : rd.energy with
  | none => simp [load_json, export_json, ResultData.to_dict, h]
  | some b => simp [load_json, export_json, ResultData.to_dict, h,
      pyFloat_eq_id, pyIntId_eq_id]

theorem roundtrip_result (rd : ResultData) :
    (load_json (export_json rd)).result = rd.result := by
  cases h : rd.result with
  | none => simp [load_json, export_json, ResultData.to_dict, h]
  | some b => simp [load_json, export_json, ResultData.to_dict, h,
      pyFloat_eq_id, pyIntId_eq_id]

theorem roundtrip_sea_matrix (rd : ResultData) :
    (load_json (export_json rd)).sea_matrix = rd.sea_matrix.map seaRealPart := by
  cases h : rd.sea_matrix with
  | none => simp [load_json, export_json, ResultData.to_dict, h]
  | some s => simp [load_json, export_json, ResultData.to_dict,
      SEAMatrixData.to_dict, seaRealPart, h, pyFloat_eq_id, pyIntId_eq_id]

/-- Claim C2: exporting a ResultData bundle with export_json and
reloading with load_json preserves the frequency arrays (Hz and rad/s),
the modal datasets (same keys, equal modal_density / modal_overlap /
frequency arrays), and the energy and response (result) data blocks
exactly; the reloaded power-balance (SEA) matrix equals exactly the
real part of the original matrix. -/
theorem C2_json_roundtrip (rd : ResultData) :
    (load_json (export_json rd)).frequency_hz = rd.frequency_hz ∧
    (load_json (export_json rd)).frequency_rad = rd.frequency_rad ∧
    (load_json (export_json rd)).modal_data = rd.modal_data ∧
    (load_json (export_json rd)).energy = rd.energy ∧
    (load_json (export_json rd)).result = rd.result ∧
    (load_json (export_json rd)).sea_matrix = rd.sea_matrix.map seaRealPart :=
  ⟨roundtrip_frequency_hz rd, roundtrip_frequency_rad rd,
   roundtrip_modal_data rd, roundtrip_energy rd, roundtrip_result rd,
   roundtrip_sea_matrix rd⟩

/-- A bundle exercising the fields the JSON loader never reads back:
non-empty loads, a power-input block, and a unit selection. -/
def rdLossy : ResultData :=
  { project_name := "P"
    frequency_hz := [100, 125, 160]
    frequency_rad := [628, 785, 1005]
    power_input := some { data := [3, 4], dof_id := [1, 2] }
    loads := [("L1", { name := "L1", type := "power", spectrum := some [1, 2, 3] })]
    units := [("energy", "mJ")] }

/-- Claim C3 counterexample: the JSON loader does not read the loads,
power_input or units sections back, so a bundle with non-empty loads,
a power-input block and a unit selection does not survive the
export/reload round trip — those fields come back empty, refuting the
claim that every field except the matrix's imaginary part survives. -/
theorem C3_counterexample :
    (load_json (export_json rdLossy)).loads = [] ∧ rdLossy.loads ≠ [] ∧
    (load_json (export_json rdLossy)).power_input = none ∧
    rdLossy.power_input ≠ none ∧
    (load_json (export_json rdLossy)).units = [] ∧ rdLossy.units ≠ [] := by
  refine ⟨rfl, ?_, rfl, ?_, rfl, ?_⟩ <;> simp [rdLossy]

/-- Claim C3 (amended): the JSON loader reconstructs the project name,
frequency arrays, system metadata, modal datasets, junction records,
and energy and result blocks exactly, and the power-balance matrix up
to dropping its imaginary component; the loads, power_input and
unit-selection fields are not read back and are reset to their empty
defaults, and analysis_type / export_format are reset to the
fresh-instance defaults. -/
theorem C3_roundtrip_amended (rd : ResultData) :
    (load_json (export_json rd)).project_name = rd.project_name ∧
    (load_json (export_json rd)).frequency_hz = rd.frequency_hz ∧
    (load_json (export_json rd)).frequency_rad = rd.frequency_rad ∧
    (load_json (export_json rd)).systems = rd.systems ∧
    (load_json (export_json rd)).modal_data = rd.modal_data ∧
    (load_json (export_json rd)).junctions = rd.junctions ∧
    (load_json (export_json rd)).energy = rd.energy ∧
    (load_json (export_json rd)).result = rd.result ∧
    (load_json (export_json rd)).sea_matrix = rd.sea_matrix.map seaRealPart ∧
    (load_json (export_json rd)).loads = [] ∧
    (load_json (export_json rd)).power_input = none ∧
    (load_json (export_json rd)).units = [] ∧
    (load_json (export_json rd)).analysis_type = "SEA" ∧
    (load_json (export_json rd)).export_format = "1.0" :=
  ⟨roundtrip_project_name rd, roundtrip_frequency_hz rd,
   roundtrip_frequency_rad rd, roundtrip_systems rd,
   roundtrip_modal_data rd, roundtrip_junctions rd, roundtrip_energy rd,
   roundtrip_result rd, roundtrip_sea_matrix rd, rfl, rfl, rfl, rfl, rfl⟩

/-! ## Lookup lemmas for the unit table -/

theorem lookupU_updateAssoc (tbl : List (String × String)) (k v q : String) :
    lookupU (updateAssoc tbl k v) q =
      if q = k then some v else lookupU tbl q := by
  induction tbl with
  | nil =>
      by_cases hq : q = k
      · simp [updateAssoc, lookupU, hq]
      · simp [updateAssoc, lookupU, hq, Ne.symm hq]
  | cons hd tl ih =>
      obtain ⟨k0, v0⟩ := hd
      by_cases hk : k0 = k
      · subst hk
        by_cases hq : q = k0
        · simp [updateAssoc, lookupU, hq]
        · simp [updateAssoc, lookupU, hq, Ne.symm hq]
      · by_cases hq : k0 = q
        · subst hq
          simp [updateAssoc, lookupU, hk, Ne.symm hk]
        · simp [updateAssoc, lookupU, hk, hq, ih]

/-- Claim C7: energy unit conversion is a pure scalar multiply applied
once to the whole array: with the table's energy unit set to "mJ" the
conversion returns exactly the input array multiplied elementwise by
1000, with "uJ" by 10^6, and with the base unit "J" the array is
returned unchanged. -/
theorem C7_energy_unit_conversion (tbl : UnitTable) (data : List (List ℚ)) :
    convert_energy (updateAssoc tbl "energy" "mJ") data
        = data.map (fun row => row.map (fun x => x * 1000)) ∧
    convert_energy (updateAssoc tbl "energy" "uJ") data
        = data.map (fun row => row.map (fun x => x * 1000000)) ∧
    convert_energy (updateAssoc tbl "energy" "J") data = data := by
  refine ⟨?_, ?_, ?_⟩ <;> simp [convert_energy, lookupU_updateAssoc]

/-- Claim C8: set_units with a quantity/unit pair whose unit string is
not in the quantity's enumerated set (or whose quantity key is unknown)
emits a warning and leaves the stored unit of every quantity unchanged,
and never raises (the embedding is a total function); a recognized pair
replaces the stored unit for that quantity and leaves the others
untouched. -/
theorem C8_set_units_validation (tbl : UnitTable) (k v q : String) :
    (lookupU (set_units tbl [(k, v)]).1 q =
        if q = k ∧ validUnit k v then some v else lookupU tbl q) ∧
    ((set_units tbl [(k, v)]).2 =
        if validUnit k v then []
        else ["Ignoring invalid unit: " ++ k ++ "=" ++ v]) := by
  constructor
  · by_cases hv : validUnit k v
    · simp [set_units, hv, lookupU_updateAssoc]
    · simp [set_units, hv]
  · by_cases hv : validUnit k v <;> simp [set_units, hv]

/-! ## Result extraction (posttreatment.py lines 221-518)

The solved pyva model handle is embedded as a record of optional
capabilities: `none` stands for a missing / incompatible attribute,
whose access in the Python code raises inside the step's try block and
is recovered by that step's `except` handler (warning logged, field
left at the fresh-instance default). -/

/-- The solver's frequency axis: a DataAxis-like object with a `.data`
attribute, or a raw array (the hasattr branch of `_extract_frequency`,
lines 277-285). -/
inductive FreqAxis where
  | withData (data : List ℚ)
  | rawArray (arr : List ℚ)
deriving DecidableEq, Repr

/-- The flattened numeric content of the axis (both branches flatten). -/
def FreqAxis.values : FreqAxis → List ℚ
  | .withData d => d
  | .rawArray a => a

/-- Embedding of `_extract_frequency` (lines 273-287): returns the
(rad/s, Hz) pair; Hz is rad/s divided by 2·np.pi.  A missing axis
leaves both lists empty. -/
def extract_frequency (xdata : Option FreqAxis) : List ℚ × List ℚ :=
  match xdata with
  | none => ([], [])
  | some ax =>
      let fr := ax.values
      (fr, fr.map (fun w => w / (2 * pi64)))

/-- A solver-native system as probed by the extractor: class name plus
optional duck-typed attributes and modal capabilities. -/
structure PyvaSysObj where
  className : String
  Lx : Option ℚ := none
  Ly : Option ℚ := none
  Lz : Option ℚ := none
  volume : Option ℚ := none
  area : Option ℚ := none
  material : Option (String × Option ℚ × Option ℚ) := none
  wave_DOF : Option (List ℤ) := none
  modal_density : Option (List ℚ → ℤ → List ℚ) := none
  modal_overlap : Option (List ℚ → ℤ → List ℚ) := none

/-- Embedding of `_extract_systems` (lines 289-322): per-system info
keyed by `str(sys_id)`. -/
def extract_systems (systems : Option (List (ℤ × PyvaSysObj))) :
    List (String × SystemInfo) :=
  match systems with
  | none => []
  | some l => l.map (fun p =>
      (toString p.1,
       { id := p.1, type := p.2.className, Lx := p.2.Lx, Ly := p.2.Ly,
         Lz := p.2.Lz, volume := p.2.volume, area := p.2.area,
         material := p.2.material }))

/-- Substring membership, embedding Python's `sub in s`. -/
def strContains (s sub : String) : Bool := (s.splitOn sub).length > 1

/-- Embedding of `_get_system_type` (lines 371-381). -/
def get_system_type (s : PyvaSysObj) : String :=
  if strContains s.className "Plate" then "plate"
  else if strContains s.className "Beam" then "beam"
  else if strContains s.className "Room" || strContains s.className "Cavity" then "cavity"
  else "structural"

/-- Embedding of `_extract_modal_data` (lines 324-369): for each system
and each discovered wave type (default [3] when discovery fails), store
a ModalData keyed `"sys" ++ id ++ "_wave" ++ type` if the system has the
modal_density capability; a missing modal_overlap capability yields the
zero array (`modal_density * 0`). -/
def extract_modal_data (systems : Option (List (ℤ × PyvaSysObj)))
    (freq_rad freq_hz : List ℚ) : List (String × ModalData) :=
  match systems with
  | none => []
  | some l => l.flatMap (fun p =>
      let wave_types := p.2.wave_DOF.getD [3]
      wave_types.filterMap (fun wt =>
        match p.2.modal_density with
        | none => none
        | some md =>
            let density := md freq_rad wt
            let overlap :=
              match p.2.modal_overlap with
              | some mo => mo freq_rad wt
              | none => (md freq_rad wt).map (fun x => x * 0)
            some ("sys" ++ toString p.1 ++ "_wave" ++ toString wt,
              { system_id := p.1, system_name := p.2.className,
                system_type := get_system_type p.2, wave_type := wt,
                modal_density := density, modal_overlap := overlap,
                frequency := freq_hz })))

/-- A solved pyva coupling as probed by the extractor: class name plus
optional attributes; each connected system carries an optional ID. -/
structure PyvaJuncObj where
  className : String
  systems : Option (List (Option ℤ)) := none
  area : Option ℚ := none
  length : Option ℚ := none
  thetas : Option (List ℚ) := none
  coupling_loss_factor : Option (List (List CNum)) := none
deriving DecidableEq, Repr

/-- Embedding of `_extract_junctions` (lines 383-418): endpoint ids
default to 0 when the systems list is short or an ID is missing;
falsy area/length/thetas values are stored as None; the CLF matrix
keeps its real part only. -/
def extract_junctions (junctions : Option (List (String × PyvaJuncObj))) :
    List (String × JunctionData) :=
  match junctions with
  | none => []
  | some l => l.map (fun p =>
      let junc := p.2
      let ids : ℤ × ℤ :=
        match junc.systems with
        | some ss =>
            if ss.length ≥ 2 then
              ((ss.getD 0 none).getD 0, (ss.getD 1 none).getD 0)
            else (0, 0)
        | none => (0, 0)
      (p.1,
       { junction_name := p.1
         junction_type := junc.className
         system1_id := ids.1
         system2_id := ids.2
         area := match junc.area with
           | some a => if a = 0 then none else some a
           | none => none
         length := match junc.length with
           | some x => if x = 0 then none else some x
           | none => none
         angles := match junc.thetas with
           | some ts => if ts = [] then none else some ts
           | none => none
         coupling_loss_factor := junc.coupling_loss_factor.map
           (fun mtx => mtx.map (fun row => row.map (fun c => c.1))) }))

/-- A solver result object (energy / general result): 2-D ydata plus a
DOF object with optional ID and DOF-type arrays. -/
structure RawSignal where
  ydata : List (List ℚ)
  dof_ID : Option (List ℤ) := none
  dof_DOF : Option (List ℤ) := none

/-- The power-input result object: 1-D ydata plus optional DOF ids. -/
structure RawPower where
  ydata : List ℚ
  dof_ID : Option (List ℤ) := none

/-- Embedding of `_extract_energy` (lines 420-441): unit-convert the
array and record the DOF labels (empty when the attribute is absent). -/
def extract_energy (tbl : UnitTable) (energy : Option RawSignal) :
    Option EnergyBlock :=
  energy.map (fun sig =>
    { data := convert_energy tbl sig.ydata
      dof_id := sig.dof_ID.getD []
      dof_type := sig.dof_DOF.getD [] })

/-- Embedding of `_extract_result` (lines 443-463): velocity columns
(DOF type 7) are unit-converted. -/
def extract_result (tbl : UnitTable) (result : Option RawSignal) :
    Option EnergyBlock :=
  result.map (fun sig =>
    { data := convert_result_data tbl sig.ydata (sig.dof_DOF.getD [])
      dof_id := sig.dof_ID.getD []
      dof_type := sig.dof_DOF.getD [] })

/-- Embedding of `_extract_power_input` (lines 465-483). -/
def extract_power_input (tbl : UnitTable) (power : Option RawPower) :
    Option PowerBlock :=
  power.map (fun sig =>
    { data := convert_power tbl sig.ydata
      dof_id := sig.dof_ID.getD [] })

/-- Embedding of `_extract_sea_matrix` (lines 485-503): requires both
the SEAmatrix attribute and the systems map (the latter is read inside
the same try block); stores the real part of the matrix and the Hz
frequency axis extracted earlier. -/
def extract_sea_matrix (sea : Option (List (List (List CNum))))
    (systems : Option (List (ℤ × PyvaSysObj))) (freq_hz : List ℚ) :
    Option SEAMatrixData :=
  match sea, systems with
  | some mtx, some sys =>
      some { matrix := mtx.map (fun f => f.map (fun row => row.map (fun c => (c.1, (0 : ℚ)))))
             frequency := freq_hz
             system_ids := sys.map (fun p => p.1)
             system_types := sys.map (fun p => p.2.className) }
  | _, _ => none

/-- A solver-native load as probed by `_extract_loads`: the printed DOF
label if present, and the spectrum array if present. -/
structure RawLoad where
  dof_str : Option String := none
  spectrum : Option (List ℚ) := none
deriving DecidableEq, Repr

/-- Embedding of `_extract_loads` (lines 505-518). -/
def extract_loads (loads : Option (List (String × RawLoad))) :
    List (String × LoadInfo) :=
  match loads with
  | none => []
  | some l => l.map (fun p =>
      (p.1, { name := p.1, type := p.2.dof_str.getD "unknown",
              spectrum := p.2.spectrum }))

/-- The solved pyva model handle as seen by the extractor: every
capability optional. -/
structure PyvaModel where
  xdata : Option FreqAxis := none
  systems : Option (List (ℤ × PyvaSysObj)) := none
  junctions : Option (List (String × PyvaJuncObj)) := none
  energy : Option RawSignal := none
  result : Option RawSignal := none
  power_input : Option RawPower := none
  SEAmatrix : Option (List (List (List CNum))) := none
  loads : Option (List (String × RawLoad)) := none

/-- Embedding of `PostTreatment.process_model` (lines 221-271) on a
fresh `PostTreatment` instance: store the requested units unvalidated,
then run the nine extraction steps in sequence, each mutating its own
field of the result bundle.  Returns the bundle and the final
`self._units` table. -/
def process_model (project_name : String) (m : PyvaModel)
    (energy_unit : String := "mJ") (power_unit : String := "mW")
    (velocity_unit : String := "mm/s") : ResultData × UnitTable :=
  let tbl := (storeUnits default_units energy_unit power_unit velocity_unit).1
  let rd0 : ResultData := { project_name := project_name }
  let fr := extract_frequency m.xdata
  let rd1 := { rd0 with frequency_rad := fr.1, frequency_hz := fr.2 }
  let rd2 := { rd1 with systems := extract_systems m.systems }
  let rd3 := { rd2 with
    modal_data := extract_modal_data m.systems rd2.frequency_rad rd2.frequency_hz }
  let rd4 := { rd3 with junctions := extract_junctions m.junctions }
  let rd5 := { rd4 with energy := extract_energy tbl m.energy }
  let rd6 := { rd5 with result := extract_result tbl m.result }
  let rd7 := { rd6 with power_input := extract_power_input tbl m.power_input }
  let rd8 := { rd7 with
    sea_matrix := extract_sea_matrix m.SEAmatrix m.systems rd7.frequency_hz }
  let rd9 := { rd8 with loads := extract_loads m.loads }
  (rd9, tbl)

/-- Claim C9: process_model is total — for every model handle, including
one missing any or all solver capabilities, it returns a ResultData
(the embedding is a total function, matching the per-step try/except
recovery) — and each extraction step is local: every field of the
returned bundle is a function of only that step's own capabilities (so
one step's failure cannot abort another), and a step whose capability
is missing leaves its field at the empty fresh-instance default. -/
theorem C9_process_model_total_and_local (pn : String) (m : PyvaModel)
    (eu pu vu : String) :
    ((process_model pn m eu pu vu).1 =
      { project_name := pn
        frequency_rad := (extract_frequency m.xdata).1
        frequency_hz := (extract_frequency m.xdata).2
        systems := extract_systems m.systems
        modal_data := extract_modal_data m.systems
          (extract_frequency m.xdata).1 (extract_frequency m.xdata).2
        junctions := extract_junctions m.junctions
        energy := extract_energy (storeUnits default_units eu pu vu).1 m.energy
        result := extract_result (storeUnits default_units eu pu vu).1 m.result
        power_input := extract_power_input (storeUnits default_units eu pu vu).1 m.power_input
        sea_matrix := extract_sea_matrix m.SEAmatrix m.systems (extract_frequency m.xdata).2
        loads := extract_loads m.loads }) ∧
    extract_frequency none = ([], []) ∧
    extract_systems none = [] ∧
    (∀ fr hz, extract_modal_data none fr hz = []) ∧
    extract_junctions none = [] ∧
    (∀ tbl, extract_energy tbl none = none) ∧
    (∀ tbl, extract_result tbl none = none) ∧
    (∀ tbl, extract_power_input tbl none = none) ∧
    (∀ sys hz, extract_sea_matrix none sys hz = none) ∧
    extract_loads none = [] := by
  refine ⟨rfl, rfl, rfl, fun fr hz => rfl, rfl, fun tbl => rfl,
    fun tbl => rfl, fun tbl => rfl, fun sys hz => ?_, rfl⟩
  cases sys <;> rfl

/-- Claim C10: the unit arguments of process_model are stored into the
unit table verbatim, skipping the validation that set_units performs
(which would have kept the previous unit), with no warning emitted; an
energy unit that is not a recognized scaled unit makes the conversion
fall through to the base case, so the extracted energy data stays at
its SI values while the table records the invalid string. -/
theorem C10_process_model_units_unvalidated (pn : String) (m : PyvaModel)
    (eu pu vu : String) (sig : RawSignal)
    (hinv : validUnit "energy" eu = false)
    (henergy : m.energy = some sig) :
    lookupU (process_model pn m eu pu vu).2 "energy" = some eu ∧
    (storeUnits default_units eu pu vu).2 = [] ∧
    (set_units default_units [("energy", eu)]).1 = default_units ∧
    (process_model pn m eu pu vu).1.energy =
      some { data := sig.ydata, dof_id := sig.dof_ID.getD [],
             dof_type := sig.dof_DOF.getD [] } := by
  have hmJ : eu ≠ "mJ" := by rintro rfl; exact absurd hinv (by decide)
  have huJ : eu ≠ "uJ" := by rintro rfl; exact absurd hinv (by decide)
  refine ⟨?_, rfl, ?_, ?_⟩
  · simp [process_model, storeUnits, lookupU_updateAssoc]
  · simp [set_units, hinv]
  · simp [process_model, henergy, extract_energy, convert_energy,
      storeUnits, lookupU_updateAssoc, hmJ, huJ]

/-- Witness for claim C10: the unvalidated unit string "XYZ" on a model
with an energy result, evaluated concretely. -/
theorem C10_witness :
    validUnit "energy" "XYZ" = false ∧
    (let m : PyvaModel :=
      { energy := some { ydata := [[1, 2], [3, 4]], dof_ID := some [1, 2],
                         dof_DOF := some [3, 3] } }
     lookupU (process_model "W" m "XYZ" "mW" "mm/s").2 "energy" = some "XYZ" ∧
     (storeUnits default_units "XYZ" "mW" "mm/s").2 = [] ∧
     (set_units default_units [("energy", "XYZ")]).1 = default_units ∧
     (process_model "W" m "XYZ" "mW" "mm/s").1.energy =
       some { data := [[1, 2], [3, 4]], dof_id := [1, 2],
              dof_type := [3, 3] }) :=
  ⟨by decide,
   C10_process_model_units_unvalidated "W" _ "XYZ" "mW" "mm/s" _
     (by decide) rfl⟩

/-! ## Entity model and model assembler (core/engine.py)

Pyva objects (materials, systems, couplings, loads, the hybrid model)
are external-collaborator constructs; they are embedded as inert records
holding exactly the constructor arguments the adapter passes.  Python
object identity of registered wrapper entities is embedded as the
entity's index in the engine's `systems` list. -/

/-- Generic association-list read (Python dict `get`). -/
def lookupA {α : Type} (l : List (String × α)) (q : String) : Option α :=
  match l with
  | [] => none
  | (k0, v0) :: rest => if k0 = q then some v0 else lookupA rest q

/-- Generic Python dict assignment: replace in place or append. -/
def updateA {α : Type} (tbl : List (String × α)) (k : String) (v : α) :
    List (String × α) :=
  match tbl with
  | [] => [(k, v)]
  | (k0, v0) :: rest =>
      if k0 = k then (k, v) :: rest else (k0, v0) :: updateA rest k v

/-- Embedding of the `MaterialDefinition` dataclass (engine.py
lines 36-51). -/
structure MaterialDefinition where
  name : String
  material_type : String
  density : Option ℚ := none
  speed_of_sound : Option ℚ := none
  bulk_modulus : Option ℚ := none
  loss_factor : ℚ := 0
  youngs_modulus : Option ℚ := none
  poisson_ratio : Option ℚ := none
  porosity : Option ℚ := none
  flow_resistivity : Option ℚ := none
  tortuosity : Option ℚ := none
  thickness : Option ℚ := none
deriving DecidableEq, Repr

/-- A pyva material object (constructor arguments as passed by the
adapter); `defaultFluid` is `matC.Fluid()` with library defaults, the
ambient air built at the start of `build_model` (line 284). -/
inductive PyvaMaterial where
  | fluid (rho0 c0 eta : ℚ)
  | isoMat (E nu rho0 eta : ℚ)
  | equivalentFluid (porosity flow_res tortuosity rho0 : ℚ)
  | defaultFluid
deriving DecidableEq, Repr

/-- Embedding of `MaterialDefinition.to_pyva_material` (lines 52-78):
dispatch on material_type with Python-truthy defaulting of each
parameter; unrecognized types fall through to None. -/
def MaterialDefinition.to_pyva_material (m : MaterialDefinition) :
    Option PyvaMaterial :=
  if m.material_type = "fluid" then
    some (.fluid (pyOrElse m.density 1.208) (pyOrElse m.speed_of_sound 343)
      m.loss_factor)
  else if m.material_type = "solid" then
    some (.isoMat (pyOrElse m.youngs_modulus 210000000000)
      (pyOrElse m.poisson_ratio 0.3) (pyOrElse m.density 7800) m.loss_factor)
  else if m.material_type = "equivalent_fluid" then
    some (.equivalentFluid (pyOrElse m.porosity 0.98)
      (pyOrElse m.flow_resistivity 25000) (pyOrElse m.tortuosity 1.02)
      (pyOrElse m.density 1.208))
  else none

/-- A pyva `PlateProp` object (thickness, material). -/
structure PlateProp where
  thickness : ℚ
  material : PyvaMaterial
deriving DecidableEq, Repr

/-- Embedding of the `StructuralElement` dataclass (lines 81-91); the
unused `trim` field is omitted. -/
structure StructuralElement where
  name : String
  element_type : String
  dimensions : List (String × ℚ) := []
  material : Option MaterialDefinition := none
  damping_loss_factor : ℚ := 0.01
  system_id : Option ℕ := none
deriving DecidableEq, Repr

/-- Embedding of `StructuralElement.to_pyva_property` (lines 92-103):
a plate with a material whose conversion succeeds yields a PlateProp
with the `thickness` dimension (default 0.01); anything else None. -/
def StructuralElement.to_pyva_property (e : StructuralElement) :
    Option PlateProp :=
  if e.element_type = "plate" then
    match e.material with
    | some m =>
        match m.to_pyva_material with
        | some mat =>
            some { thickness := (lookupA e.dimensions "thickness").getD 0.01
                   material := mat }
        | none => none
    | none => none
  else none

/-- Embedding of the `AcousticSpace` dataclass (lines 106-116). -/
structure AcousticSpace where
  name : String
  volume : Option ℚ := none
  surface_area : Option ℚ := none
  perimeter : Option ℚ := none
  dimensions : Option (ℚ × ℚ × ℚ) := none
  absorption_area : ℚ := 0
  damping_type : List String := ["surface"]
  system_id : Option ℕ := none
deriving DecidableEq, Repr

/-- A pyva solver-native system object (constructor arguments);
`flat_cavity_sw` models the attribute the cavity workaround adds
(lines 309-313): `none` means the attribute does not exist. -/
inductive PyvaSystem where
  | rectangularPlate (id : ℕ) (Lx Ly : ℚ) (prop : PlateProp)
  | rectangularRoom (id : ℕ) (Lx Ly Lz : ℚ) (fluid : PyvaMaterial)
      (absorption_area : ℚ) (damping_type : List String)
      (flat_cavity_sw : Option Bool)
  | acoustic3DSystem (id : ℕ) (volume surface perimeter : ℚ)
      (fluid : PyvaMaterial) (absorption_area : ℚ)
      (damping_type : List String) (flat_cavity_sw : Option Bool)
deriving DecidableEq, Repr

/-- Embedding of `AcousticSpace.to_pyva_system` (lines 118-144): a box
with explicit dimensions becomes a RectangularRoom, otherwise an
Acoustic3DSystem with Python-truthy defaults of 1.0. -/
def AcousticSpace.to_pyva_system (a : AcousticSpace) (sys_id : ℕ)
    (fluid : PyvaMaterial) : Option PyvaSystem :=
  match a.dimensions with
  | some d => some (.rectangularRoom sys_id d.1 d.2.1 d.2.2 fluid
      a.absorption_area a.damping_type none)
  | none => some (.acoustic3DSystem sys_id (pyOrElse a.volume 1)
      (pyOrElse a.surface_area 1) (pyOrElse a.perimeter 1) fluid
      a.absorption_area a.damping_type none)

/-- Embedding of the `Junction` dataclass (lines 147-156): the
participating systems are identity references (indices into the
engine's registered-systems list). -/
structure Junction where
  name : String
  junction_type : String
  systems : List ℕ
  area : Option ℚ := none
  length : Option ℚ := none
  angles : Option (List ℚ) := none
  fluid : Option PyvaMaterial := none
deriving DecidableEq, Repr

/-- The `area=int(self.area) if self.area else None` argument (truthy
area truncated by `int()`, falsy area passed as None). -/
def areaArg (area : Option ℚ) : Option ℤ :=
  match area with
  | some a => if a = 0 then none else some (pyTrunc a)
  | none => none

/-- A pyva coupling object over endpoint type σ (constructor
arguments of `con.AreaJunction` / `con.LineJunction` /
`con.SemiInfiniteFluid`). -/
inductive PyvaCoupling (σ : Type) where
  | areaJunction (systems : List σ) (area : Option ℤ)
  | lineJunction (systems : List σ) (length : ℚ) (thetas : List ℚ)
  | semiInfiniteFluid (systems : List σ) (fluid : Option PyvaMaterial)
deriving DecidableEq, Repr

/-- The kind string a coupling object carries. -/
def couplingKind {σ : Type} : PyvaCoupling σ → String
  | .areaJunction _ _ => "area"
  | .lineJunction _ _ _ => "line"
  | .semiInfiniteFluid _ _ => "semi_infinite"

/-- The default line-junction angles `(0, 90*np.pi/180, 180*np.pi/180)`
(line 166). -/
def defaultThetas : List ℚ := [0, 90 * pi64 / 180, 180 * pi64 / 180]

/-- Embedding of `Junction.to_pyva_junction` (lines 158-176): dispatch
on the declared junction kind, building the matching pyva coupling with
the declared geometric parameters (with Python-truthy defaulting);
unrecognized kinds yield None.  Note: `build_model` never calls this
method. -/
def Junction.to_pyva_junction (j : Junction) : Option (PyvaCoupling ℕ) :=
  if j.junction_type = "area" then
    some (.areaJunction j.systems (areaArg j.area))
  else if j.junction_type = "line" then
    some (.lineJunction j.systems (pyOrElse j.length 1)
      (match j.angles with
       | some ts => if ts = [] then defaultThetas else ts
       | none => defaultThetas))
  else if j.junction_type = "semi_infinite" then
    some (.semiInfiniteFluid j.systems j.fluid)
  else none

/-- Embedding of the `Load` dataclass (lines 179-187). -/
structure Load where
  name : String
  load_type : String
  system_id : ℕ
  wave_dof : ℤ := 0
  magnitude : ℚ := 1
  spectrum : Option (List ℚ) := none
deriving DecidableEq, Repr

/-- A pyva load object (constructor arguments of `lC.Load`). -/
structure PyvaLoad where
  xdata : List ℚ
  spectrum : List ℚ
  dof_id : ℕ
  wave_dof : ℤ
  dof_type : String
  name : String
deriving DecidableEq, Repr

/-- Embedding of `Load.to_pyva_load` (lines 189-203): an absent
spectrum becomes the flat spectrum `magnitude * ones(len(axis))`. -/
def Load.to_pyva_load (l : Load) (omega : List ℚ) : Option PyvaLoad :=
  some { xdata := omega
         spectrum := match l.spectrum with
           | some s => s
           | none => omega.map (fun _ => l.magnitude)
         dof_id := l.system_id
         wave_dof := l.wave_dof
         dof_type := l.load_type
         name := l.name }

/-- A registered entity: structural element or acoustic space. -/
inductive SysWrapper where
  | structural (e : StructuralElement)
  | acoustic (a : AcousticSpace)
deriving DecidableEq, Repr

/-- The system id stored on a registered entity. -/
def wrapperId : SysWrapper → Option ℕ
  | .structural e => e.system_id
  | .acoustic a => a.system_id

/-- An endpoint passed to a pyva coupling: the converted solver-native
system when the participant is in the identity map, otherwise the
unconverted reference itself (lines 322-326). -/
inductive PyvaRef where
  | conv (s : PyvaSystem)
  | raw (idx : ℕ)
deriving DecidableEq, Repr

/-- The assembled `mds.HybridModel` with its registered couplings and
loads (the `add_junction` / `add_load` dicts). -/
structure HybridModel where
  systems : List PyvaSystem
  xdata : List ℚ
  couplings : List (String × PyvaCoupling PyvaRef) := []
  loads : List (String × PyvaLoad) := []
deriving DecidableEq, Repr

/-- Embedding of the `SEAEngine` state (lines 209-216): registered
entities, name-keyed junction and load dicts, the model handle, and the
shared id counter.  `pyva_available` is the `_check_pyva` result. -/
structure SEAEngine where
  systems : List SysWrapper := []
  junctions : List (String × Junction) := []
  loads : List (String × Load) := []
  model : Option HybridModel := none
  system_counter : ℕ := 0
  pyva_available : Bool := true
deriving DecidableEq, Repr

/-- Embedding of `SEAEngine.add_structural_element` (lines 242-247):
bump the shared counter, stamp the entity with the new id, append it,
return the id. -/
def add_structural_element (eng : SEAEngine) (e : StructuralElement) :
    ℕ × SEAEngine :=
  let newId := eng.system_counter + 1
  (newId,
   { eng with system_counter := newId
              systems := eng.systems ++
                [.structural { e with system_id := some newId }] })

/-- Embedding of `SEAEngine.add_acoustic_space` (lines 249-254): same
shared counter as `add_structural_element`. -/
def add_acoustic_space (eng : SEAEngine) (a : AcousticSpace) :
    ℕ × SEAEngine :=
  let newId := eng.system_counter + 1
  (newId,
   { eng with system_counter := newId
              systems := eng.systems ++
                [.acoustic { a with system_id := some newId }] })

/-- Embedding of `SEAEngine.add_junction` (lines 256-260): key by the
explicit name or the junction's own name; same-name registration
overwrites. -/
def add_junction (eng : SEAEngine) (j : Junction) (name : Option String) :
    String × SEAEngine :=
  let jname := name.getD j.name
  (jname, { eng with junctions := updateA eng.junctions jname j })

/-- Embedding of `SEAEngine.add_load` (lines 262-265). -/
def add_load (eng : SEAEngine) (l : Load) : String × SEAEngine :=
  (l.name, { eng with loads := updateA eng.loads l.name l })

/-- The per-system conversion step of `build_model` (lines 286-299): a
structural element converts when its property conversion succeeds and
its system id is truthy and its type is "plate"; an acoustic space with
a truthy id converts via `to_pyva_system` with the default ambient
fluid. -/
def convertSystem (w : SysWrapper) : Option PyvaSystem :=
  match w with
  | .structural e =>
      match e.to_pyva_property, e.system_id with
      | some prop, some sid =>
          if sid = 0 then none
          else if e.element_type = "plate" then
            some (.rectangularPlate sid
              ((lookupA e.dimensions "Lx").getD 1)
              ((lookupA e.dimensions "Ly").getD 1) prop)
          else none
      | _, _ => none
  | .acoustic a =>
      match a.system_id with
      | some sid =>
          if sid = 0 then none
          else a.to_pyva_system sid PyvaMaterial.defaultFluid
      | none => none

/-- The pyva cavity workaround (lines 309-313): cavity systems gain a
`flat_cavity_sw = False` attribute when they lack one.  Mutation of the
shared pyva objects, so it is visible through the identity map too. -/
def applyCavityShim : PyvaSystem → PyvaSystem
  | .rectangularRoom i lx ly lz f aa dt sw =>
      .rectangularRoom i lx ly lz f aa dt (some (sw.getD false))
  | .acoustic3DSystem i v s p f aa dt sw =>
      .acoustic3DSystem i v s p f aa dt (some (sw.getD false))
  | p => p

/-- Resolution of a junction participant through the transient identity
map (lines 320-326): a registered entity whose conversion succeeded maps
to its (shimmed) solver-native object; anything else is appended
unchanged. -/
def resolveRef (eng : SEAEngine) (i : ℕ) : PyvaRef :=
  match eng.systems.get? i with
  | some w =>
      match convertSystem w with
      | some ps => .conv (applyCavityShim ps)
      | none => .raw i
  | none => .raw i

/-- The junction-decomposition step of `build_model` (lines 318-344):
exactly 2 resolved participants yield one `con.AreaJunction` registered
under the junction's name; more than 2 yield one AreaJunction per
consecutive pair, registered under `name ++ "_" ++ i`; fewer than 2
yield nothing.  The declared junction kind is never consulted: the
constructor is always `con.AreaJunction`, with the truthy-truncated
area argument. -/
def junction_couplings (eng : SEAEngine) (jname : String) (j : Junction) :
    List (String × PyvaCoupling PyvaRef) :=
  let objs := j.systems.map (resolveRef eng)
  if objs.length = 2 then
    [(jname, .areaJunction objs (areaArg j.area))]
  else if objs.length > 2 then
    (List.range (objs.length - 1)).map (fun i =>
      (jname ++ "_" ++ toString i,
       .areaJunction [objs.getD i (.raw 0), objs.getD (i + 1) (.raw 0)]
         (areaArg j.area)))
  else []

/-- The outcome of `build_model`: Python returns a bool (`ok ↦ True`,
both failure constructors ↦ False); the failure branches are
distinguished in the code by their log messages ("Cannot build model:
Pyva not available", line 270, and "No systems to build model from",
line 306 — the spec taxonomy's NoSystemsError). -/
inductive BuildOutcome where
  | ok
  | unavailable
  | noSystems
deriving DecidableEq, Repr

/-- Embedding of `SEAEngine.build_model` (lines 267-356): convert every
registered system (skipping failures), fail with `noSystems` when none
converts — before any model is constructed — otherwise build the
HybridModel over the shimmed systems and the frequency axis, register
the decomposed junctions and the converted loads, and store the model
handle.  The frequency axis is a parameter: its construction is
delegated to the external pyva library (`create_frequency_axis`). -/
def build_model (eng : SEAEngine) (omega : List ℚ) :
    SEAEngine × BuildOutcome :=
  if eng.pyva_available = false then (eng, .unavailable)
  else
    let pyva_systems := eng.systems.filterMap convertSystem
    if pyva_systems = [] then (eng, .noSystems)
    else
      let shimmed := pyva_systems.map applyCavityShim
      let model0 : HybridModel := { systems := shimmed, xdata := omega }
      let withJ := { model0 with
        couplings := eng.junctions.flatMap
          (fun p => junction_couplings eng p.1 p.2) }
      let withL := { withJ with
        loads := eng.loads.filterMap
          (fun p => (p.2.to_pyva_load omega).map (fun pl => (p.1, pl))) }
      ({ eng with model := some withL }, .ok)

/-! ## Identifier allocation (claims about add_structural_element /
add_acoustic_space) -/

/-- One registration call: either kind of entity. -/
inductive RegisterOp where
  | structural (e : StructuralElement)
  | acoustic (a : AcousticSpace)
deriving DecidableEq, Repr

/-- Run an interleaved sequence of registration calls, collecting the
returned ids in call order. -/
def runRegister (eng : SEAEngine) : List RegisterOp → List ℕ × SEAEngine
  | [] => ([], eng)
  | op :: rest =>
      let r := match op with
        | .structural e => add_structural_element eng e
        | .acoustic a => add_acoustic_space eng a
      let rr := runRegister r.2 rest
      (r.1 :: rr.1, rr.2)

/-- A fresh engine (`SEAEngine.__init__`): empty registries, counter 0,
pyva present. -/
def freshEngine : SEAEngine := {}

theorem add_structural_element_fst (eng : SEAEngine) (e : StructuralElement) :
    (add_structural_element eng e).1 = eng.system_counter + 1 := rfl

theorem add_structural_element_counter (eng : SEAEngine)
    (e : StructuralElement) :
    (add_structural_element eng e).2.system_counter =
      eng.system_counter + 1 := rfl

theorem add_structural_element_systems (eng : SEAEngine)
    (e : StructuralElement) :
    (add_structural_element eng e).2.systems = eng.systems ++
      [.structural { e with system_id := some (eng.system_counter + 1) }] :=
  rfl

theorem add_acoustic_space_fst (eng : SEAEngine) (a : AcousticSpace) :
    (add_acoustic_space eng a).1 = eng.system_counter + 1 := rfl

theorem add_acoustic_space_counter (eng : SEAEngine) (a : AcousticSpace) :
    (add_acoustic_space eng a).2.system_counter =
      eng.system_counter + 1 := rfl

theorem add_acoustic_space_systems (eng : SEAEngine) (a : AcousticSpace) :
    (add_acoustic_space eng a).2.systems = eng.systems ++
      [.acoustic { a with system_id := some (eng.system_counter + 1) }] :=
  rfl

theorem runRegister_general (ops : List RegisterOp) (eng : SEAEngine) :
    (runRegister eng ops).1 =
      List.range' (eng.system_counter + 1) ops.length ∧
    (runRegister eng ops).2.system_counter =
      eng.system_counter + ops.length ∧
    ∃ tail, (runRegister eng ops).2.systems = eng.systems ++ tail ∧
      tail.map wrapperId =
        (List.range' (eng.system_counter + 1) ops.length).map some := by
  induction ops generalizing eng with
  | nil => exact ⟨rfl, rfl, [], by simp [runRegister], rfl⟩
  | cons op rest ih =>
      cases op with
      | structural e =>
          obtain ⟨h1, h2, tail, h3, h4⟩ := ih (add_structural_element eng e).2
          rw [add_structural_element_counter] at h1 h2 h4
          refine ⟨?_, ?_, ?_⟩
          · simp only [runRegister, List.length_cons, List.range'_succ, h1]
            rfl
          · simp only [runRegister, List.length_cons, h2]
            omega
          · refine ⟨SysWrapper.structural
              { e with system_id := some (eng.system_counter + 1) } :: tail,
              ?_, ?_⟩
            · simp only [runRegister, h3, add_structural_element_systems]
              simp
            · simp only [List.map_cons, h4, List.length_cons,
                List.range'_succ]
              rfl
      | acoustic a =>
          obtain ⟨h1, h2, tail, h3, h4⟩ := ih (add_acoustic_space eng a).2
          rw [add_acoustic_space_counter] at h1 h2 h4
          refine ⟨?_, ?_, ?_⟩
          · simp only [runRegister, List.length_cons, List.range'_succ, h1]
            rfl
          · simp only [runRegister, List.length_cons, h2]
            omega
          · refine ⟨SysWrapper.acoustic
              { a with system_id := some (eng.system_counter + 1) } :: tail,
              ?_, ?_⟩
            · simp only [runRegister, h3, add_acoustic_space_systems]
              simp
            · simp only [List.map_cons, h4, List.length_cons,
                List.range'_succ]
              rfl

/-- Claim C4: from a fresh engine, every interleaved sequence of n
registration calls (structural elements and acoustic spaces mixed)
returns the ids 1..n in call order from the single shared counter, with
no repeats; the k-th registered entity is stamped with id k exactly
once; and no operation (later registrations, add_junction, add_load)
removes or renumbers an already-registered entity. -/
theorem C4_id_allocation (ops : List RegisterOp) :
    (runRegister freshEngine ops).1 = List.range' 1 ops.length ∧
    (runRegister freshEngine ops).1.Nodup ∧
    (runRegister freshEngine ops).2.systems.map wrapperId =
      (List.range' 1 ops.length).map some ∧
    (∀ eng : SEAEngine, ∃ tail,
        (runRegister eng ops).2.systems = eng.systems ++ tail) ∧
    (∀ eng j nm, (add_junction eng j nm).2.systems = eng.systems ∧
        (add_junction eng j nm).2.system_counter = eng.system_counter) ∧
    (∀ eng l, (add_load eng l).2.systems = eng.systems ∧
        (add_load eng l).2.system_counter = eng.system_counter) := by
  obtain ⟨h1, h2, tail, h3, h4⟩ := runRegister_general ops freshEngine
  refine ⟨h1, ?_, ?_, ?_, fun eng j nm => ⟨rfl, rfl⟩,
    fun eng l => ⟨rfl, rfl⟩⟩
  · rw [h1]
    exact List.nodup_range' _ _
  · rw [h3]
    show tail.map wrapperId = (List.range' 1 ops.length).map some
    exact h4
  · intro eng
    obtain ⟨t, ht, _⟩ := (runRegister_general ops eng).2.2
    exact ⟨t, ht⟩

/-- Claim C5: when no registered system converts to a solver-native
object (in particular on an engine with zero systems), build_model
returns the no-systems failure (the spec taxonomy's NoSystemsError) and
leaves the engine — in particular its model field — untouched, so no
assembled model handle is made available. -/
theorem C5_no_systems_failure (eng : SEAEngine) (omega : List ℚ)
    (hav : eng.pyva_available = true)
    (hconv : eng.systems.filterMap convertSystem = []) :
    build_model eng omega = (eng, BuildOutcome.noSystems) ∧
    (build_model eng omega).1.model = eng.model := by
  have h : build_model eng omega = (eng, BuildOutcome.noSystems) := by
    simp [build_model, hav, hconv]
  exact ⟨h, by rw [h]⟩

/-- Witness for claim C5: the fresh engine with zero registered
systems. -/
theorem C5_witness :
    freshEngine.pyva_available = true ∧
    freshEngine.systems.filterMap convertSystem = [] ∧
    freshEngine.model = none ∧
    (build_model freshEngine [1] = (freshEngine, BuildOutcome.noSystems) ∧
      (build_model freshEngine [1]).1.model = freshEngine.model) :=
  ⟨rfl, rfl, rfl, C5_no_systems_failure freshEngine [1] rfl rfl⟩

/-- Claim C1: on a successfully built model the registered couplings
are exactly the per-junction decompositions in declaration order, and
for every junction: with exactly 2 participants one coupling is created
under the junction's own name; with N > 2 participants exactly N-1
couplings are created, the i-th named `name ++ "_" ++ i` and joining
the resolved participants i and i+1 (consecutive in declaration order),
so no coupling joins non-consecutive participants. -/
theorem C1_junction_decomposition (eng : SEAEngine) (omega : List ℚ)
    (jname : String) (j : Junction) :
    ((build_model eng omega).2 = BuildOutcome.ok →
      ((build_model eng omega).1.model.map HybridModel.couplings) =
        some (eng.junctions.flatMap
          (fun p => junction_couplings eng p.1 p.2))) ∧
    (j.systems.length = 2 →
      junction_couplings eng jname j =
        [(jname, .areaJunction (j.systems.map (resolveRef eng))
            (areaArg j.area))]) ∧
    (j.systems.length > 2 →
      (junction_couplings eng jname j).length = j.systems.length - 1 ∧
      ∀ i, i < j.systems.length - 1 →
        (junction_couplings eng jname j).getD i ("", .areaJunction [] none) =
          (jname ++ "_" ++ toString i,
           .areaJunction
             [(j.systems.map (resolveRef eng)).getD i (.raw 0),
              (j.systems.map (resolveRef eng)).getD (i + 1) (.raw 0)]
             (areaArg j.area))) := by
  refine ⟨?_, ?_, ?_⟩
  · intro hok
    simp only [build_model] at hok ⊢
    by_cases hav : eng.pyva_available = false
    · rw [if_pos hav] at hok
      simp at hok
    · rw [if_neg hav] at hok ⊢
      by_cases hsys : eng.systems.filterMap convertSystem = []
      · rw [if_pos hsys] at hok
        simp at hok
      · rw [if_neg hsys] at hok ⊢
        rfl
  · intro h2
    simp [junction_couplings, h2]
  · intro h3
    have hne : ¬(j.systems.length = 2) := by omega
    refine ⟨?_, ?_⟩
    · simp [junction_couplings, hne, h3]
    · intro i hi
      simp only [junction_couplings, List.length_map, hne, if_false,
        h3, if_true, gt_iff_lt]
      rw [List.getD_eq_getElem?_getD, List.getElem?_map,
        List.getElem?_range (by simpa using hi)]
      rfl

/-- A 2-system junction (spec scenario systems A, B). -/
def jAB : Junction :=
  { name := "jAB", junction_type := "area", systems := [0, 1],
    area := some 10 }

/-- A 3-system junction (spec scenario systems A, B, C). -/
def jABC : Junction :=
  { name := "jABC", junction_type := "area", systems := [0, 1, 2],
    area := some 10 }

/-- An engine with three registered acoustic spaces A, B, C and the two
junctions above. -/
def engW : SEAEngine :=
  { systems := [.acoustic { name := "A", system_id := some 1 },
                .acoustic { name := "B", system_id := some 2 },
                .acoustic { name := "C", system_id := some 3 }]
    junctions := [("jAB", jAB), ("jABC", jABC)] }

/-- Witness for claim C1: three spaces A, B, C; the 3-way junction
decomposes into "jABC_0" (A-B) and "jABC_1" (B-C) and nothing else, and
the 2-way junction yields one coupling under its own name. -/
theorem C1_witness :
    ((build_model engW [1]).2 = BuildOutcome.ok ∧
      ((build_model engW [1]).1.model.map HybridModel.couplings) =
        some (engW.junctions.flatMap
          (fun p => junction_couplings engW p.1 p.2))) ∧
    (jAB.systems.length = 2 ∧
      junction_couplings engW "jAB" jAB =
        [("jAB", .areaJunction (jAB.systems.map (resolveRef engW))
            (areaArg jAB.area))]) ∧
    (jABC.systems.length > 2 ∧
      (junction_couplings engW "jABC" jABC).length =
        jABC.systems.length - 1 ∧
      (junction_couplings engW "jABC" jABC).getD 0
          ("", .areaJunction [] none) =
        ("jABC" ++ "_" ++ toString 0,
         .areaJunction
           [(jABC.systems.map (resolveRef engW)).getD 0 (.raw 0),
            (jABC.systems.map (resolveRef engW)).getD 1 (.raw 0)]
           (areaArg jABC.area)) ∧
      (junction_couplings engW "jABC" jABC).getD 1
          ("", .areaJunction [] none) =
        ("jABC" ++ "_" ++ toString 1,
         .areaJunction
           [(jABC.systems.map (resolveRef engW)).getD 1 (.raw 0),
            (jABC.systems.map (resolveRef engW)).getD 2 (.raw 0)]
           (areaArg jABC.area))) :=
  ⟨⟨rfl, (C1_junction_decomposition engW [1] "jAB" jAB).1 rfl⟩,
   ⟨rfl, (C1_junction_decomposition engW [1] "jAB" jAB).2.1 rfl⟩,
   ⟨by decide,
    ((C1_junction_decomposition engW [1] "jABC" jABC).2.2 (by decide)).1,
    ((C1_junction_decomposition engW [1] "jABC" jABC).2.2 (by decide)).2
      0 (by decide),
    ((C1_junction_decomposition engW [1] "jABC" jABC).2.2 (by decide)).2
      1 (by decide)⟩⟩

/-- The concrete solid material of examples/line_junction_example.py. -/
def matConcrete : MaterialDefinition :=
  { name := "concrete", material_type := "solid", density := some 1250,
    youngs_modulus := some 3800000000, poisson_ratio := some 0.33,
    loss_factor := 0.03 }

/-- First wall plate (registered with id 1). -/
def wall1 : StructuralElement :=
  { name := "wall_horizontal", element_type := "plate",
    dimensions := [("thickness", 0.05), ("Lx", 4), ("Ly", 2.5)],
    material := some matConcrete, damping_loss_factor := 0.03,
    system_id := some 1 }

/-- Second wall plate (registered with id 2). -/
def wall2 : StructuralElement :=
  { name := "wall_vertical", element_type := "plate",
    dimensions := [("thickness", 0.05), ("Lx", 2.5), ("Ly", 3)],
    material := some matConcrete, damping_loss_factor := 0.03,
    system_id := some 2 }

/-- A line junction between the two walls, declared with kind "line"
and length 2.5 (the corner coupling of the line-junction example). -/
def jLine : Junction :=
  { name := "wall_corner", junction_type := "line", systems := [0, 1],
    length := some 2.5 }

/-- An engine holding the two walls and the declared line junction. -/
def engLine : SEAEngine :=
  { systems := [.structural wall1, .structural wall2]
    junctions := [("wall_corner", jLine)] }

/-- Claim C6 (code bug evaluation): for a junction declared with kind
"line" and length 2.5 between two registered plates, build_model
creates a coupling of kind "area" with no geometric parameters at all
(`con.AreaJunction` with area None), discarding the declared kind,
length and angles — although the junction's own `to_pyva_junction`
conversion (which build_model never calls) yields the declared line
coupling with its declared length and the default angles. -/
theorem C6_declared_kind_ignored :
    jLine.junction_type = "line" ∧
    (build_model engLine [1]).2 = BuildOutcome.ok ∧
    ((build_model engLine [1]).1.model.map (fun m =>
        m.couplings.map (fun c => (c.1, couplingKind c.2)))) =
      some [("wall_corner", "area")] ∧
    ((build_model engLine [1]).1.model.map HybridModel.couplings) =
      some [("wall_corner", .areaJunction
        [resolveRef engLine 0, resolveRef engLine 1] none)] ∧
    (jLine.to_pyva_junction).map couplingKind = some "line" ∧
    jLine.to_pyva_junction =
      some (.lineJunction [0, 1] 2.5 defaultThetas) :=
  ⟨rfl, rfl, rfl, rfl,
   by
     have h : jLine.to_pyva_junction = some
         (.lineJunction [0, 1] (pyOrElse (some 2.5) 1) defaultThetas) := rfl
     rw [h]
     rfl,
   by
     have h25 : pyOrElse (some (2.5 : ℚ)) 1 = 2.5 := by
       show (if (2.5 : ℚ) = 0 then 1 else 2.5) = 2.5
       rw [if_neg (by norm_num)]
     have h : jLine.to_pyva_junction = some
         (.lineJunction [0, 1] (pyOrElse (some 2.5) 1) defaultThetas) := rfl
     rw [h, h25]⟩
